import Mathlib

/-!
Shallow embedding of `src/data/build.py` (RepVGG data pipeline assembly).

The file models the bespoke pieces of that module:
  * `CustomDataset` — YOLO-format label-cropping dataset (`__init__`,
    `__len__`, `__getitem__`),
  * `build_dataset` — dataset-variant selection and class counts,
  * `build_transform` — transform-pipeline selection,
  * the `np.arange(rank, n, world)` index sets used by the samplers.

Filesystem access (`os.listdir`, `Image.open`, `open(path)`) is passed in
as explicit function arguments; numeric values are exact rationals;
fallible Python code (exceptions) is `Except String`.
-/

/-- Python `os.path.join(a, b)` for a relative second component (the only
use in the source). -/
def pathJoin (a b : String) : String := a ++ "/" ++ b

/-- Value of digit characters read left to right. -/
def digitsToNat (ds : List Char) : Nat :=
  ds.foldl (fun n c => 10 * n + (c.toNat - 48)) 0

/-- Split a character list into its leading run of decimal digits and the
rest. -/
def splitDigits (cs : List Char) : List Char × List Char :=
  (cs.takeWhile Char.isDigit, cs.dropWhile Char.isDigit)

/-- Python `float(s)` on a whitespace-free token, as an exact rational:
optional sign, digits with an optional fractional part (at least one digit
overall), optional decimal exponent.  The special tokens `inf`/`nan` (which
the enclosing code would anyway turn into an exception at the later `int()`
calls) and underscore separators are not accepted. -/
def parseFloatParts (s : String) : Option (Bool × Nat × Nat × Bool × Nat) :=
  let cs := s.data
  let signAndRest : Bool × List Char :=
    match cs with
    | '-' :: rest => (true, rest)
    | '+' :: rest => (false, rest)
    | _ => (false, cs)
  let neg := signAndRest.1
  let (ip, cs1) := splitDigits signAndRest.2
  let fracAndRest : List Char × List Char :=
    match cs1 with
    | '.' :: rest => splitDigits rest
    | _ => ([], cs1)
  let fp := fracAndRest.1
  let cs2 := fracAndRest.2
  if ip.isEmpty && fp.isEmpty then none
  else
    match cs2 with
    | [] => some (neg, digitsToNat (ip ++ fp), fp.length, false, 0)
    | e :: rest =>
      if e = 'e' || e = 'E' then
        let enegAndRest : Bool × List Char :=
          match rest with
          | '-' :: r => (true, r)
          | '+' :: r => (false, r)
          | _ => (false, rest)
        let (ed, rest2) := splitDigits enegAndRest.2
        if ed.isEmpty || !rest2.isEmpty then none
        else some (neg, digitsToNat (ip ++ fp), fp.length, enegAndRest.1, digitsToNat ed)
      else none

/-- The rational value of the parsed pieces: mantissa digits over
`10^(fraction length)`, scaled by the signed decimal exponent. -/
def partsToQ : Bool × Nat × Nat × Bool × Nat → ℚ
  | (neg, m, fl, eneg, ev) =>
    let mag : ℚ := (m : ℚ) / 10 ^ fl
    let scaled : ℚ := if eneg then mag / 10 ^ ev else mag * 10 ^ ev
    if neg then -scaled else scaled

/-- Python `float(s)` on a whitespace-free token, as an exact rational. -/
def parseFloat (s : String) : Option ℚ := (parseFloatParts s).map partsToQ

/-- Python `int(x)` on a float value: truncation toward zero. -/
def truncQ (q : ℚ) : ℤ := if q < 0 then ⌈q⌉ else ⌊q⌋

/-- Helper for `pySplit`: walk the characters, collecting the current
token in `acc` (reversed) and emitting it at each whitespace run. -/
def splitWSAux : List Char → List Char → List String
  | [], acc => if acc.isEmpty then [] else [String.mk acc.reverse]
  | c :: cs, acc =>
    if c.isWhitespace then
      if acc.isEmpty then splitWSAux cs []
      else String.mk acc.reverse :: splitWSAux cs []
    else splitWSAux cs (c :: acc)

/-- Python `str.split()` with no argument: split on runs of whitespace,
dropping empty pieces. -/
def pySplit (s : String) : List String := splitWSAux s.data []

/-- Python `str.strip()` with no argument: drop leading and trailing
whitespace. -/
def pyStrip (s : String) : String :=
  String.mk (((s.data.dropWhile Char.isWhitespace).reverse.dropWhile
    Char.isWhitespace).reverse)

/-- Python `s.endswith(suf)`: the characters of `suf` are a suffix of the
characters of `s` (case-sensitive, exact). -/
def pyEndsWith (s suf : String) : Bool :=
  List.isPrefixOf suf.data.reverse s.data.reverse

/-- Python `file.readline()` on the file contents: everything up to and
including the first newline (the whole string when there is none). -/
def readline (s : String) : String :=
  match s.data.findIdx? (fun c => c = '\n') with
  | some i => String.mk (s.data.take (i + 1))
  | none => s

/-- Python `os.path.splitext(f)[0]` for a path without separators: drop the
extension starting at the last dot, provided some earlier character of the
name is not a dot (so `.txt` keeps its leading-dot name whole). -/
def splitextRoot (f : String) : String :=
  let cs := f.data
  let dots := (List.range cs.length).filter (fun i => cs.getD i ' ' = '.')
  match dots.getLast? with
  | none => f
  | some i =>
    if (List.range i).any (fun j => cs.getD j ' ' ≠ '.') then
      String.mk (cs.take i)
    else f

/-- Model of `map(float, fields)` consumed left to right by the unpacking: every
field must convert, else `ValueError` at the first failure. -/
def parseFieldsList : List String → Except String (List ℚ)
  | [] => Except.ok []
  | s :: rest =>
    match parseFloat s with
    | some q =>
      match parseFieldsList rest with
      | Except.ok qs => Except.ok (q :: qs)
      | Except.error e => Except.error e
    | none => Except.error "ValueError: could not convert string to float"

/-- Model of `map(float, line.split())` from `__getitem__`. -/
def parseFields (line : String) : Except String (List ℚ) :=
  parseFieldsList (pySplit line)

/-- A PIL image as far as `__getitem__` consults it: `image.size`. -/
structure PyImage where
  width : Nat
  height : Nat
deriving DecidableEq, Repr

/-- Whether an `Except` result is an exception. -/
def isError {ε α : Type} : Except ε α → Bool
  | .error _ => true
  | .ok _ => false

instance exceptDecEq {ε α : Type} [DecidableEq ε] [DecidableEq α] :
    DecidableEq (Except ε α)
  | .ok a, .ok b =>
    if h : a = b then .isTrue (by rw [h]) else .isFalse (by simp [h])
  | .ok _, .error _ => .isFalse (by simp)
  | .error _, .ok _ => .isFalse (by simp)
  | .error e, .error f =>
    if h : e = f then .isTrue (by rw [h]) else .isFalse (by simp [h])

/-- State of `CustomDataset` after `__init__`: the two directories and the
directory listing filtered to image filenames. -/
structure CustomDataset where
  image_dir : String
  label_dir : String
  image_filenames : List String
deriving DecidableEq, Repr

namespace CustomDataset

/-- Python `CustomDataset.__init__(image_dir, label_dir)`: `listing` is what
`os.listdir(image_dir)` returned. -/
def init (image_dir label_dir : String) (listing : List String) : CustomDataset :=
  { image_dir := image_dir
    label_dir := label_dir
    image_filenames :=
      listing.filter (fun f => pyEndsWith f ".jpg" || pyEndsWith f ".png") }

/-- Python `CustomDataset.__len__`. -/
def len (d : CustomDataset) : Nat := d.image_filenames.length

/-- Python `CustomDataset.__getitem__(idx)` up to the crop.  `images` models
`Image.open(path).convert('RGB')` (`none` = the file is missing), `labels`
models `open(path).read` contents.  The result is the crop rectangle
`(x1, y1, x2, y2)` together with the class id; the subsequent
`self.transform(img)` application does not change these.  Any raised
exception (missing file, bad index, failed `float`, wrong field count)
becomes `Except.error`; nothing in the module catches it. -/
def getitem (d : CustomDataset) (images : String → Option PyImage)
    (labels : String → Option String) (idx : Nat) :
    Except String (ℤ × ℤ × ℤ × ℤ × ℤ) := do
  let image_filename ←
    match d.image_filenames.get? idx with
    | some f => Except.ok f
    | none => Except.error "IndexError"
  let image_path := pathJoin d.image_dir image_filename
  let label_path := pathJoin d.label_dir (splitextRoot image_filename ++ ".txt")
  let image ←
    match images image_path with
    | some im => Except.ok im
    | none => Except.error "FileNotFoundError (image)"
  let width : ℚ := image.width
  let height : ℚ := image.height
  let content ←
    match labels label_path with
    | some c => Except.ok c
    | none => Except.error "FileNotFoundError (label)"
  let line := pyStrip (readline content)
  let vals ← parseFields line
  match vals with
  | [cid, cx0, cy0, bw0, bh0] =>
    let class_id : ℤ := truncQ cid
    let cx := cx0 * width
    let cy := cy0 * height
    let bw := bw0 * width
    let bh := bh0 * height
    let x1 := truncQ (cx - bw / 2)
    let y1 := truncQ (cy - bh / 2)
    let x2 := truncQ (cx + bw / 2)
    let y2 := truncQ (cy + bh / 2)
    Except.ok (x1, y1, x2, y2, class_id)
  | _ => Except.error "ValueError: unpacking mismatch"

end CustomDataset

/-- The configuration fields that `build_dataset` and `build_transform`
consult (flattened from the nested `config` object). -/
structure Config where
  DATASET : String        -- config.DATA.DATASET
  DATA_PATH : String      -- config.DATA.DATA_PATH
  ZIP_MODE : Bool         -- config.DATA.ZIP_MODE
  CACHE_MODE : String     -- config.DATA.CACHE_MODE
  IMG_SIZE : Nat          -- config.DATA.IMG_SIZE
  TEST_SIZE : Nat         -- config.DATA.TEST_SIZE
  INTERPOLATION : String  -- config.DATA.INTERPOLATION
  TEST_CROP : Bool        -- config.TEST.CROP
  PRESET : Option String  -- config.AUG.PRESET
  COLOR_JITTER : ℚ        -- config.AUG.COLOR_JITTER
  AUTO_AUGMENT : String   -- config.AUG.AUTO_AUGMENT
  REPROB : ℚ              -- config.AUG.REPROB
  REMODE : String         -- config.AUG.REMODE
  RECOUNT : Nat           -- config.AUG.RECOUNT
deriving DecidableEq, Repr

/-- The dataset object `build_dataset` returns, by variant.  External
constructors (`CachedImageFolder`, `torchvision.datasets.ImageNet`,
`datasets.CIFAR100`) are recorded with the arguments the source passes
them; the custom variant carries the constructed `CustomDataset`. -/
inductive DatasetObj where
  | cachedImageFolder (data_path ann_file pfx cache_mode : String)
  | torchvisionImageNet (root split : String)
  | cifar100 (root : String) (train : Bool)
  | custom (d : CustomDataset)
deriving DecidableEq, Repr

/-- One step of a torchvision transform pipeline, with the arguments the
source passes. -/
inductive TransformStep where
  | resize (size : Nat) (interpolation : String)
  | centerCrop (size : Nat)
  | randomResizedCrop (size : Nat)
  | randomHorizontalFlip
  | randAugPolicy (magnitude : Nat)
  | randomCrop (size pad : Nat)
  | toTensor
  | normalize (mean std : List ℚ)
deriving DecidableEq, Repr

/-- A transform object: either a `transforms.Compose` of listed steps, or
the pipeline `timm.data.create_transform` builds for training (recorded by
the arguments passed, plus whether the source then replaced its first step
by `RandomCrop(IMG_SIZE, padding=4)`). -/
inductive Transform where
  | compose (steps : List TransformStep)
  | timmTrain (input_size : Nat) (color_jitter : Option ℚ)
      (auto_augment : Option String) (re_prob : ℚ) (re_mode : String)
      (re_count : Nat) (interpolation : String)
      (firstReplacedByRandomCrop : Option (Nat × Nat))
deriving DecidableEq, Repr

/-- Constant `IMAGENET_DEFAULT_MEAN` from `timm.data.constants`. -/
def imagenetMean : List ℚ := [485/1000, 456/1000, 406/1000]

/-- Constant `IMAGENET_DEFAULT_STD` from `timm.data.constants`. -/
def imagenetStd : List ℚ := [229/1000, 224/1000, 225/1000]

/-- The `dir_list` loop of the custom branch of `build_dataset`: for each
entry of `os.listdir(path)`, append `os.path.join(path, dir)` when the
entry is `'images'`, and again when it is `'labels'`. -/
def collectDirs (path : String) (entries : List String) : List String :=
  entries.foldl (fun dir_list dir =>
    let dir_list := if dir = "images" then dir_list ++ [pathJoin path dir] else dir_list
    if dir = "labels" then dir_list ++ [pathJoin path dir] else dir_list) []

/-- Python `build_dataset(is_train, config)`.  `listdir` models `os.listdir`.
Returns the dataset object and `nb_classes`; a raised exception
(`NotImplementedError` for an unknown dataset name, `IndexError` when
`dir_list[1]` does not exist) is `Except.error`. -/
def build_dataset (is_train : Bool) (cfg : Config)
    (listdir : String → List String) : Except String (DatasetObj × Nat) :=
  if cfg.DATASET = "imagenet" then
    let pfx := if is_train then "train" else "val"
    let dataset : DatasetObj :=
      if cfg.ZIP_MODE then
        .cachedImageFolder cfg.DATA_PATH (pfx ++ "_map.txt") (pfx ++ ".zip@/")
          (if is_train then cfg.CACHE_MODE else "part")
      else
        .torchvisionImageNet cfg.DATA_PATH (if is_train then "train" else "val")
    Except.ok (dataset, 1000)
  else if cfg.DATASET = "cf100" then
    Except.ok (.cifar100 cfg.DATA_PATH is_train, 100)
  else if cfg.DATASET = "custom" then
    let path := pathJoin cfg.DATA_PATH (if is_train then "train" else "valid")
    let dir_list := collectDirs path (listdir path)
    match dir_list.get? 1, dir_list.get? 0 with
    | some d1, some d0 =>
      -- the source passes image_dir=dir_list[1], label_dir=dir_list[0]
      Except.ok (.custom (CustomDataset.init d1 d0 (listdir d1)), 8)
    | _, _ => Except.error "IndexError: list index out of range"
  else
    Except.error "NotImplementedError: We only support ImageNet and CIFAR-100 now."

/-- Python `build_transform(is_train, config)`.  An unrecognized non-None
`AUG.PRESET` raises `ValueError` (is_train branch only); nothing else
raises. -/
def build_transform (is_train : Bool) (cfg : Config) : Except String Transform :=
  let resize_im := decide (32 < cfg.IMG_SIZE)
  if is_train then
    match cfg.PRESET with
    | none =>
      Except.ok (.timmTrain cfg.IMG_SIZE
        (if 0 < cfg.COLOR_JITTER then some cfg.COLOR_JITTER else none)
        (if cfg.AUTO_AUGMENT ≠ "none" then some cfg.AUTO_AUGMENT else none)
        cfg.REPROB cfg.REMODE cfg.RECOUNT cfg.INTERPOLATION
        (if !resize_im then some (cfg.IMG_SIZE, 4) else none))
    | some preset =>
      if pyStrip preset = "raug15" then
        Except.ok (.compose [.randomResizedCrop cfg.IMG_SIZE, .randomHorizontalFlip,
          .randAugPolicy 15, .toTensor, .normalize imagenetMean imagenetStd])
      else if pyStrip preset = "weak" then
        Except.ok (.compose [.randomResizedCrop cfg.IMG_SIZE, .randomHorizontalFlip,
          .toTensor, .normalize imagenetMean imagenetStd])
      else if pyStrip preset = "none" then
        Except.ok (.compose [.resize cfg.IMG_SIZE cfg.INTERPOLATION,
          .centerCrop cfg.IMG_SIZE, .toTensor, .normalize imagenetMean imagenetStd])
      else
        Except.error ("ValueError: ???" ++ preset)
  else
    let t : List TransformStep :=
      (if resize_im then
        if cfg.TEST_CROP then
          -- size = int((256 / 224) * TEST_SIZE), exact arithmetic
          [.resize (truncQ ((256 / 224 : ℚ) * cfg.TEST_SIZE)).toNat cfg.INTERPOLATION,
           .centerCrop cfg.TEST_SIZE]
        else
          [.resize cfg.TEST_SIZE cfg.INTERPOLATION, .centerCrop cfg.TEST_SIZE]
      else []) ++ [.toTensor, .normalize imagenetMean imagenetStd]
    Except.ok (.compose t)

/-- NumPy `arange(start, stop, step)` over the naturals (`step > 0`). -/
def arange (start stop step : Nat) : List Nat :=
  (List.range ((stop - start + step - 1) / step)).map (fun k => start + k * step)

/-! Concrete example objects used by witnesses and counterexamples. -/

/-- A one-image dataset as `__init__` builds it from a listing. -/
def ds0 : CustomDataset := CustomDataset.init "imgs" "lbls" ["a.jpg"]

/-- A filesystem with a single 100×100 image. -/
def images0 : String → Option PyImage :=
  fun p => if p = "imgs/a.jpg" then some ⟨100, 100⟩ else none

/-- Label file for `a.jpg`: a good first line plus a second line. -/
def labels0 : String → Option String :=
  fun p => if p = "lbls/a.txt" then some "1 0.5 0.5 0.5 0.5\nsecond line" else none

/-- Same first line as `labels0`, different tail after the newline. -/
def labelsAlt : String → Option String :=
  fun p => if p = "lbls/a.txt" then some "1 0.5 0.5 0.5 0.5\nDIFFERENT TAIL" else none

/-- A filesystem with no label files at all. -/
def labelsMissing : String → Option String := fun _ => none

/-- A configuration selecting the custom dataset under `data/`. -/
def cfgCustom : Config :=
  { DATASET := "custom", DATA_PATH := "data", ZIP_MODE := false,
    CACHE_MODE := "part", IMG_SIZE := 96, TEST_SIZE := 96,
    INTERPOLATION := "bicubic", TEST_CROP := true, PRESET := none,
    COLOR_JITTER := 4/10, AUTO_AUGMENT := "none", REPROB := 1/4,
    REMODE := "pixel", RECOUNT := 1 }

/-- Model of `os.listdir` answering `['images', 'labels']` for `data/train` (the
sorted order). -/
def listdirSwap : String → List String := fun p =>
  if p = "data/train" then ["images", "labels"]
  else if p = "data/train/images" then ["a.jpg"]
  else if p = "data/train/labels" then ["a.txt"]
  else []

/-- Model of `os.listdir` answering `['labels', 'images']` for `data/train`. -/
def listdirGood : String → List String := fun p =>
  if p = "data/train" then ["labels", "images"]
  else if p = "data/train/images" then ["a.jpg"]
  else if p = "data/train/labels" then ["a.txt"]
  else []

/-- A configuration with an unsupported dataset name. -/
def cfgUnknownDs : Config := { cfgCustom with DATASET := "mnist" }

/-- A configuration whose augmentation preset is unrecognized. -/
def cfgBadPreset : Config :=
  { cfgCustom with DATASET := "imagenet", PRESET := some "bogus" }

/-- Same evaluation-relevant fields as `cfgBadPreset` (IMG_SIZE, TEST.CROP,
TEST_SIZE, INTERPOLATION), different everything else. -/
def cfgEvalOther : Config :=
  { DATASET := "cf100", DATA_PATH := "other", ZIP_MODE := true,
    CACHE_MODE := "no", IMG_SIZE := 96, TEST_SIZE := 96,
    INTERPOLATION := "bicubic", TEST_CROP := true, PRESET := some " weak ",
    COLOR_JITTER := 0, AUTO_AUGMENT := "rand", REPROB := 0,
    REMODE := "const", RECOUNT := 3 }

/-- Agreement of `pyEndsWith` with list-suffix on the characters. -/
theorem pyEndsWith_iff (s suf : String) :
    pyEndsWith s suf = true ↔ suf.data <:+ s.data := by
  unfold pyEndsWith
  rw [List.isPrefixOf_iff_prefix, List.reverse_prefix]

/-- Characterization of membership in `arange r n w` for a rank `r < w`:
exactly the indices below `n` congruent to `r` modulo `w`. -/
theorem mem_arange_iff {i r n w : Nat} (hw : 0 < w) (hr : r < w) :
    i ∈ arange r n w ↔ i < n ∧ i % w = r := by
  unfold arange
  simp only [List.mem_map, List.mem_range]
  constructor
  · rintro ⟨k, hk, hi⟩
    subst hi
    have h2 : (k + 1) * w ≤ n - r + w - 1 := (Nat.le_div_iff_mul_le hw).mp hk
    rw [Nat.succ_mul] at h2
    obtain ⟨p, hp⟩ : ∃ p, p = k * w := ⟨_, rfl⟩
    rw [← hp] at h2 ⊢
    refine ⟨by omega, ?_⟩
    rw [hp, Nat.add_mul_mod_self_right, Nat.mod_eq_of_lt hr]
  · rintro ⟨hin, hmod⟩
    have hdm := Nat.div_add_mod i w
    rw [hmod, Nat.mul_comm] at hdm
    refine ⟨i / w, ?_, ?_⟩
    · refine (Nat.le_div_iff_mul_le hw).mpr ?_
      rw [Nat.succ_mul]
      obtain ⟨p, hp⟩ : ∃ p, p = i / w * w := ⟨_, rfl⟩
      rw [← hp] at hdm ⊢
      omega
    · obtain ⟨p, hp⟩ : ∃ p, p = i / w * w := ⟨_, rfl⟩
      rw [← hp] at hdm ⊢
      omega

/-- C3: the length reported by `CustomDataset.__len__` equals the number of
image files found in the directory listing at construction time. -/
theorem C3_len_eq_image_file_count (image_dir label_dir : String)
    (listing : List String) :
    (CustomDataset.init image_dir label_dir listing).len
      = listing.countP (fun f => pyEndsWith f ".jpg" || pyEndsWith f ".png") := by
  simp [CustomDataset.init, CustomDataset.len, List.countP_eq_length_filter]

/-- C9: the file listing keeps exactly the entries ending in the exact
suffix `.jpg` or `.png`; in particular `.jpeg`, `.JPG`, `.PNG` names are
excluded. -/
theorem C9_exact_suffix_filter (image_dir label_dir : String)
    (listing : List String) (f : String) :
    (f ∈ (CustomDataset.init image_dir label_dir listing).image_filenames
      ↔ f ∈ listing ∧ (".jpg".data <:+ f.data ∨ ".png".data <:+ f.data))
    ∧ (CustomDataset.init "i" "l"
        ["cat.jpeg", "cat.JPG", "cat.PNG", "cat.txt", "a.jpg", "b.png"]).image_filenames
      = ["a.jpg", "b.png"] := by
  constructor
  · simp [CustomDataset.init, List.mem_filter, pyEndsWith_iff]
  · decide

/-- C2: `__getitem__` converts the normalized box to the pixel rectangle
`x1 = int(cx*W - bw*W/2)`, `y1 = int(cy*H - bh*H/2)`,
`x2 = int(cx*W + bw*W/2)`, `y2 = int(cy*H + bh*H/2)` (and the class id is
`int` of the first field); on a 100×100 image with all fields `0.5` this is
the crop (25,25)-(75,75), as the witness instantiates. -/
theorem C2_crop_formula (d : CustomDataset) (images : String → Option PyImage)
    (labels : String → Option String) (idx : Nat) (f content : String)
    (W H : Nat) (c cx cy bw bh : ℚ)
    (hf : d.image_filenames.get? idx = some f)
    (him : images (pathJoin d.image_dir f) = some ⟨W, H⟩)
    (hlb : labels (pathJoin d.label_dir (splitextRoot f ++ ".txt")) = some content)
    (hparse : parseFields (pyStrip (readline content))
        = Except.ok [c, cx, cy, bw, bh]) :
    d.getitem images labels idx
      = Except.ok (truncQ (cx * W - bw * W / 2), truncQ (cy * H - bh * H / 2),
          truncQ (cx * W + bw * W / 2), truncQ (cy * H + bh * H / 2), truncQ c) := by
  rw [List.get?_eq_getElem?] at hf
  unfold CustomDataset.getitem
  simp [hf, him, hlb, hparse, Bind.bind, Except.bind, Except.instMonad]

/-- Witness for C2 at the claim's own instance: label line
`1 0.5 0.5 0.5 0.5` on a 100×100 image crops (25,25)-(75,75). -/
theorem C2_crop_formula_witness :
    CustomDataset.getitem ds0 images0 labels0 0 = Except.ok (25, 25, 75, 75, 1) := by
  have hp : parseFields (pyStrip (readline "1 0.5 0.5 0.5 0.5\nsecond line"))
      = Except.ok [1, 1/2, 1/2, 1/2, 1/2] := by
    have h1 : pySplit (pyStrip (readline "1 0.5 0.5 0.5 0.5\nsecond line"))
        = ["1", "0.5", "0.5", "0.5", "0.5"] := by decide
    have h2 : parseFloat "1" = some (1 : ℚ) := by
      have h : parseFloatParts "1" = some (false, 1, 0, false, 0) := by decide
      rw [parseFloat, h]; simp [partsToQ]
    have h3 : parseFloat "0.5" = some (1/2 : ℚ) := by
      have h : parseFloatParts "0.5" = some (false, 5, 1, false, 0) := by decide
      rw [parseFloat, h]; simp [partsToQ]; norm_num
    rw [parseFields, h1]
    simp [parseFieldsList, h2, h3]
  have h := C2_crop_formula ds0 images0 labels0 0 "a.jpg"
      "1 0.5 0.5 0.5 0.5\nsecond line" 100 100 1 (1/2) (1/2) (1/2) (1/2)
      (by decide) (by decide) (by decide) hp
  rw [h]
  norm_num [truncQ]

/-- C1 (code bug): with `os.listdir('data/train') = ['images', 'labels']`,
`build_dataset` hands `CustomDataset` the labels directory as `image_dir`
and the images directory as `label_dir` — the two are swapped (so the
dataset then lists image files inside `labels/` and comes out empty). -/
theorem C1_dirs_swapped :
    build_dataset true cfgCustom listdirSwap
      = Except.ok (.custom ⟨"data/train/labels", "data/train/images", []⟩, 8)
    ∧ ("data/train/labels" : String) ≠ "data/train/images" := by
  constructor
  · decide
  · decide

/-- C7: for world size `w > 0` the index lists `arange r n w`,
`r = 0..w-1`, are pairwise disjoint and together cover `{0,...,n-1}`. -/
theorem C7_arange_partition (n w : Nat) (hw : 0 < w) :
    (∀ r1 r2, r1 < w → r2 < w → r1 ≠ r2 →
      ∀ i, i ∈ arange r1 n w → i ∉ arange r2 n w)
    ∧ (∀ i, i < n ↔ ∃ r, r < w ∧ i ∈ arange r n w) := by
  constructor
  · intro r1 r2 hr1 hr2 hne i hi1 hi2
    have a1 := ((mem_arange_iff hw hr1).mp hi1).2
    have a2 := ((mem_arange_iff hw hr2).mp hi2).2
    exact hne (by rw [← a1, ← a2])
  · intro i
    constructor
    · intro hin
      exact ⟨i % w, Nat.mod_lt _ hw,
        (mem_arange_iff hw (Nat.mod_lt _ hw)).mpr
          ⟨hin, rfl⟩⟩
    · rintro ⟨r, hr, hi⟩
      exact ((mem_arange_iff hw hr).mp hi).1

/-- Witness for C7 at `n = 5`, `w = 2`. -/
theorem C7_arange_partition_witness :
    0 < 2
    ∧ ((∀ r1 r2, r1 < 2 → r2 < 2 → r1 ≠ r2 →
          ∀ i, i ∈ arange r1 5 2 → i ∉ arange r2 5 2)
        ∧ (∀ i, i < 5 ↔ ∃ r, r < 2 ∧ i ∈ arange r 5 2)) :=
  ⟨by decide, C7_arange_partition 5 2 (by decide)⟩

/-- C8: when `is_train` is false, `build_transform` never consults
`AUG.PRESET`: the evaluation transform depends only on `DATA.IMG_SIZE`,
`TEST.CROP`, `DATA.TEST_SIZE`, `DATA.INTERPOLATION`, and never raises. -/
theorem C8_eval_ignores_preset (cfg1 cfg2 : Config)
    (h1 : cfg1.IMG_SIZE = cfg2.IMG_SIZE) (h2 : cfg1.TEST_CROP = cfg2.TEST_CROP)
    (h3 : cfg1.TEST_SIZE = cfg2.TEST_SIZE)
    (h4 : cfg1.INTERPOLATION = cfg2.INTERPOLATION) :
    build_transform false cfg1 = build_transform false cfg2
    ∧ isError (build_transform false cfg1) = false := by
  constructor
  · rw [build_transform, build_transform, h1, h2, h3, h4]
    rfl
  · rfl

/-- Witness for C8: an unrecognized preset next to a recognized one, all
four evaluation fields equal, same evaluation transform and no error. -/
theorem C8_eval_ignores_preset_witness :
    build_transform false cfgBadPreset = build_transform false cfgEvalOther
    ∧ isError (build_transform false cfgBadPreset) = false :=
  C8_eval_ignores_preset cfgBadPreset cfgEvalOther rfl rfl rfl rfl

/-- C4: whenever `build_dataset` returns, the class count it returns is
1000 for 'imagenet', 100 for 'cf100', and 8 for 'custom', for either value
of `is_train`. -/
theorem C4_class_counts (is_train : Bool) (cfg : Config)
    (listdir : String → List String) (d : DatasetObj) (n : Nat)
    (h : build_dataset is_train cfg listdir = Except.ok (d, n)) :
    (cfg.DATASET = "imagenet" → n = 1000)
    ∧ (cfg.DATASET = "cf100" → n = 100)
    ∧ (cfg.DATASET = "custom" → n = 8) := by
  refine ⟨fun hd => ?_, fun hd => ?_, fun hd => ?_⟩
  · rw [build_dataset, hd] at h
    simp at h
    omega
  · rw [build_dataset, hd] at h
    simp at h
    omega
  · rw [build_dataset, hd] at h
    simp at h
    split at h
    · simp at h
      omega
    · simp at h

/-- Witness for C4: a custom-dataset configuration that returns, with
class count 8 (at `is_train = true`). -/
theorem C4_class_counts_witness :
    build_dataset true cfgCustom listdirGood
      = Except.ok
          (.custom ⟨"data/train/images", "data/train/labels", ["a.jpg"]⟩, 8)
    ∧ ((cfgCustom.DATASET = "imagenet" → (8 : Nat) = 1000)
        ∧ (cfgCustom.DATASET = "cf100" → (8 : Nat) = 100)
        ∧ (cfgCustom.DATASET = "custom" → (8 : Nat) = 8)) :=
  ⟨by decide,
   C4_class_counts true cfgCustom listdirGood
     (.custom ⟨"data/train/images", "data/train/labels", ["a.jpg"]⟩) 8
     (by decide)⟩

/-- C5 counterexample: with `is_train = false` an unrecognized non-None
preset raises nothing — `build_transform` returns a transform, so the
claim's unconditional "raises for every unrecognized preset" is false. -/
theorem C5_counterexample_eval_no_raise :
    cfgBadPreset.PRESET = some "bogus"
    ∧ pyStrip "bogus" ≠ "raug15" ∧ pyStrip "bogus" ≠ "weak"
    ∧ pyStrip "bogus" ≠ "none"
    ∧ isError (build_transform false cfgBadPreset) = false :=
  ⟨rfl, by decide, by decide, by decide, rfl⟩

/-- C5 (amended): `build_dataset` raises for every dataset name other than
'imagenet'/'cf100'/'custom'; `build_transform`, when `is_train` is true,
raises for every non-None preset whose stripped form is not
'raug15'/'weak'/'none'.  Both surface as uncaught exceptions. -/
theorem C5_unknown_raises (cfg : Config) (is_train : Bool)
    (listdir : String → List String) (p : String) :
    (cfg.DATASET ≠ "imagenet" → cfg.DATASET ≠ "cf100" → cfg.DATASET ≠ "custom" →
      isError (build_dataset is_train cfg listdir) = true)
    ∧ (cfg.PRESET = some p →
      pyStrip p ≠ "raug15" → pyStrip p ≠ "weak" → pyStrip p ≠ "none" →
      isError (build_transform true cfg) = true) := by
  constructor
  · intro h1 h2 h3
    rw [build_dataset, if_neg h1, if_neg h2, if_neg h3]
    rfl
  · intro hp h1 h2 h3
    rw [build_transform]
    simp only [if_pos rfl]
    rw [hp]
    simp [h1, h2, h3, isError]

/-- Witness for the amended C5: 'mnist' as dataset name and 'bogus' as
training preset both raise. -/
theorem C5_unknown_raises_witness :
    isError (build_dataset true cfgUnknownDs listdirGood) = true
    ∧ isError (build_transform true cfgBadPreset) = true :=
  ⟨(C5_unknown_raises cfgUnknownDs true listdirGood "x").1
      (by decide) (by decide) (by decide),
   (C5_unknown_raises cfgBadPreset true listdirGood "bogus").2
      rfl (by decide) (by decide) (by decide)⟩

/-- C6: a missing paired label file, or a first label line that does not
parse as exactly five float fields, makes `__getitem__` raise; nothing in
the module catches the exception (no recovery or substitute value). -/
theorem C6_bad_label_raises (d : CustomDataset) (images : String → Option PyImage)
    (labels : String → Option String) (idx : Nat) (f : String)
    (hf : d.image_filenames.get? idx = some f)
    (hbad : labels (pathJoin d.label_dir (splitextRoot f ++ ".txt")) = none
      ∨ ∀ content,
          labels (pathJoin d.label_dir (splitextRoot f ++ ".txt")) = some content →
          ∀ q1 q2 q3 q4 q5 : ℚ,
            parseFields (pyStrip (readline content)) ≠ Except.ok [q1, q2, q3, q4, q5]) :
    isError (d.getitem images labels idx) = true := by
  rw [List.get?_eq_getElem?] at hf
  unfold CustomDataset.getitem
  cases him : images (pathJoin d.image_dir f) with
  | none => simp [List.get?_eq_getElem?, hf, him, Bind.bind, Except.bind, isError]
  | some im =>
    cases hlb : labels (pathJoin d.label_dir (splitextRoot f ++ ".txt")) with
    | none => simp [List.get?_eq_getElem?, hf, him, hlb, Bind.bind, Except.bind, isError]
    | some content =>
      rcases hbad with hbad | hbad
      · rw [hbad] at hlb
        cases hlb
      · have hb := hbad content hlb
        cases hp : parseFields (pyStrip (readline content)) with
        | error e =>
          simp [List.get?_eq_getElem?, hf, him, hlb, hp, Bind.bind, Except.bind, isError]
        | ok vals =>
          rcases vals with _ | ⟨q1, _ | ⟨q2, _ | ⟨q3, _ | ⟨q4, _ | ⟨q5, _ | ⟨q6, rest⟩⟩⟩⟩⟩⟩ <;>
            first
              | exact absurd hp (hb q1 q2 q3 q4 q5)
              | simp [List.get?_eq_getElem?, hf, him, hlb, hp, Bind.bind,
                  Except.bind, isError]

/-- Witness for C6: the label file of `a.jpg` is missing, `__getitem__`
raises. -/
theorem C6_bad_label_raises_witness :
    isError (CustomDataset.getitem ds0 images0 labelsMissing 0) = true :=
  C6_bad_label_raises ds0 images0 labelsMissing 0 "a.jpg" (by decide)
    (Or.inl (by decide))

/-- C10: `__getitem__` reads only the first line of the label file — two
label-file states agreeing on `readline` (and on the file's existence)
give identical results, so lines after the first are silently ignored. -/
theorem C10_first_line_only (d : CustomDataset) (images : String → Option PyImage)
    (labels1 labels2 : String → Option String) (idx : Nat) (f : String)
    (hf : d.image_filenames.get? idx = some f)
    (h : (labels1 (pathJoin d.label_dir (splitextRoot f ++ ".txt"))).map readline
       = (labels2 (pathJoin d.label_dir (splitextRoot f ++ ".txt"))).map readline) :
    d.getitem images labels1 idx = d.getitem images labels2 idx := by
  rw [List.get?_eq_getElem?] at hf
  unfold CustomDataset.getitem
  cases him : images (pathJoin d.image_dir f) with
  | none => simp [List.get?_eq_getElem?, hf, him, Bind.bind, Except.bind]
  | some im =>
    cases h1 : labels1 (pathJoin d.label_dir (splitextRoot f ++ ".txt")) with
    | none =>
      cases h2 : labels2 (pathJoin d.label_dir (splitextRoot f ++ ".txt")) with
      | none => simp [List.get?_eq_getElem?, hf, him, h1, h2, Bind.bind, Except.bind]
      | some c2 => rw [h1, h2] at h; simp at h
    | some c1 =>
      cases h2 : labels2 (pathJoin d.label_dir (splitextRoot f ++ ".txt")) with
      | none => rw [h1, h2] at h; simp at h
      | some c2 =>
        rw [h1, h2] at h
        simp only [Option.map_some'] at h
        rw [Option.some.injEq] at h
        simp [List.get?_eq_getElem?, hf, him, h1, h2, h, Bind.bind, Except.bind]

/-- Witness for C10: two label files sharing the first line and differing
after the newline give the same item. -/
theorem C10_first_line_only_witness :
    CustomDataset.getitem ds0 images0 labels0 0
      = CustomDataset.getitem ds0 images0 labelsAlt 0 :=
  C10_first_line_only ds0 images0 labels0 labelsAlt 0 "a.jpg" (by decide) (by decide)
